import Mathlib

/-!
Shallow embedding of `src/pkg/collector/python/init.go` (datadog-agent):
the lifecycle manager for the embedded Python runtime ("six" library).

The Go file keeps four process-wide variables (`PythonVersion`, `PythonHome`,
`PythonPath`, `six`) plus a cache entry; we gather them in `PyState`.
All foreign (cgo) and host-service behaviour that `Initialize` merely
consumes — `make2`/`make3`, `is_initialized`, `get_error`, `get_py_version`,
`os.Stat`, `executable.Folder`, `version.New`, the compiled-in home paths,
`runtime.GOOS` — is packaged as an `Env` of oracles.  Side effects that the
code performs on the foreign runtime or the host (creating the handle,
probing the marker directory, adding python paths, the boot call, metric
submission, module registrations, destroying the handle) are recorded as an
explicit event trace.
-/

namespace DatadogInit

/-- Abstract stand-in for a `*C.six_t` pointer value; `Option Handle` models
a nullable pointer (`none` = NULL). -/
abbrev Handle := Nat

/-- Outcome of `os.Stat` on a path, as far as the Go code inspects it:
`ok` (no error), `errNotExist` (an error for which `os.IsNotExist` is true),
`errOther` (any other error, e.g. permission denied). -/
inductive StatRes where
  | ok : StatRes
  | errNotExist : StatRes
  | errOther : StatRes
deriving DecidableEq, Repr

/-- The parsed host-agent version, as produced by a successful
`version.New(version.AgentVersion, version.Commit)`. -/
structure AgentVersion where
  major : Nat
  minor : Nat
  patch : Nat
deriving DecidableEq, Repr

/-- The metric type used by `sendTelemetry` (`metrics.APIGaugeType`). -/
inductive MetricType where
  | apiGauge : MetricType
deriving DecidableEq, Repr

/-- Embedding of `metrics.Serie` as far as `sendTelemetry` populates it.
The single point's value `1.0` is an exactly-representable float; we model
point values as rationals. -/
structure Serie where
  name : String
  points : List ℚ
  tags : List String
  mtype : MetricType
deriving DecidableEq, Repr

/-- Oracles for everything `Initialize`/`Destroy` consume from outside the
Go file: cgo calls into the six library, OS probes and host services. -/
structure Env where
  /-- `runtime.GOOS`. -/
  goos : String
  /-- `executable.Folder()` (its error is discarded by the code). -/
  executableFolder : String
  /-- `os.Stat` on a path, reduced to the three outcomes the code can see. -/
  stat : String → StatRes
  /-- `C.make2(home)`: `none` models a NULL handle. -/
  make2 : String → Option Handle
  /-- `C.make3(home)`: `none` models a NULL handle. -/
  make3 : String → Option Handle
  /-- `C.is_initialized(six)`, queried after `C.init`. -/
  is_initialized : Handle → Int
  /-- `C.get_error(six)`, converted by `C.GoString`. -/
  get_error : Handle → String
  /-- `C.get_py_version(six)`: `none` models a NULL string pointer. -/
  get_py_version : Handle → Option String
  /-- Result of `version.New(version.AgentVersion, version.Commit)`:
  `none` when the host agent's own version string fails to parse. -/
  agentVersion : Option AgentVersion
  /-- The `-ldflags`-injected compiled-in default `pythonHome2`. -/
  pythonHome2 : String
  /-- The `-ldflags`-injected compiled-in default `pythonHome3`. -/
  pythonHome3 : String

/-- Configuration: `config.Datadog.GetInt("python_version")`. -/
structure Config where
  pythonVersion : Int
deriving DecidableEq, Repr

/-- The process-wide mutable state of the Go file: the exported variables,
the handle pointer `six`, and the `cache` entry keyed
`BuildAgentKey("pythonVersion")`. -/
structure PyState where
  PythonVersion : String
  PythonHome : String
  PythonPath : String
  six : Option Handle
  cachedPythonVersion : Option String
deriving DecidableEq, Repr

/-- One observable effect of the code on the foreign runtime or the host. -/
inductive Event where
  /-- `C.make2`/`C.make3` called with the given home path (version 2 or 3). -/
  | make (version : Nat) (home : String) : Event
  /-- `os.Stat` issued on the marker path (Windows branch). -/
  | statProbe (path : String) : Event
  /-- `C.add_python_path(six, p)`. -/
  | addPythonPath (path : String) : Event
  /-- `C.init(six)`: the boot call. -/
  | bootInit : Event
  /-- `aggregator.AddRecurrentSeries(serie)` from `sendTelemetry`. -/
  | telemetry (serie : Serie) : Event
  /-- `C.initCgoFree(six)`. -/
  | cgoFreeInit : Event
  /-- `C.initDatadogAgentModule(six)`. -/
  | regDatadogAgent : Event
  /-- `C.initAggregatorModule(six)`. -/
  | regAggregator : Event
  /-- `C.initUtilModule(six)`. -/
  | regUtil : Event
  /-- `C.initTaggerModule(six)`. -/
  | regTagger : Event
  /-- `initContainerFilter()`: host-side exclusion-filter build. -/
  | containerFilterInit : Event
  /-- `C.initContainersModule(six)`. -/
  | regContainers : Event
  /-- `C.initkubeutilModule(six)`. -/
  | regKubeutil : Event
  /-- `C.destroy(six)` on the given handle. -/
  | destroySix (h : Handle) : Event
deriving DecidableEq, Repr

/-- Whether an event is the registration of a capability module's callback
table into the handle. -/
def Event.isModuleReg : Event → Bool
  | .regDatadogAgent => true
  | .regAggregator => true
  | .regUtil => true
  | .regTagger => true
  | .regContainers => true
  | .regKubeutil => true
  | _ => false

/-- Whether an event is a telemetry submission. -/
def Event.isTelemetry : Event → Bool
  | .telemetry _ => true
  | _ => false

/-- Whether an event is a handle-creation call (`C.make2`/`C.make3`). -/
def Event.isMake : Event → Bool
  | .make _ _ => true
  | _ => false

/-- `strings.Replace(s, "\n", "", -1)`: with a one-character pattern and an
empty replacement, replacing every non-overlapping occurrence is exactly
dropping every newline character. -/
def stripNewlines (s : String) : String :=
  String.mk (s.data.filter (fun c => c ≠ '\n'))

/-- `filepath.Join(PythonHome, "lib", "python2.7")` as evaluated on the
Windows branch (the only branch that computes it): components are joined
with the Windows separator. -/
def markerPath (home : String) : String :=
  home ++ "\\lib\\python2.7"

/-- Embedding of `sendTelemetry`: builds the `datadog.agent.python.version`
gauge serie with one point of value 1.0; the agent-version tags are appended
only when `version.New` succeeds. -/
def sendTelemetry (env : Env) (pythonVersion : Int) : Serie :=
  let tags := ["python_version:" ++ toString pythonVersion]
  let tags :=
    match env.agentVersion with
    | some av =>
        tags ++
          ["agent_version_major:" ++ toString av.major,
           "agent_version_minor:" ++ toString av.minor,
           "agent_version_patch:" ++ toString av.patch]
    | none => tags
  { name := "datadog.agent.python.version"
    points := [(1 : ℚ)]
    tags := tags
    mtype := MetricType.apiGauge }

/-- The `runtime.GOOS == "windows"` block of `Initialize`: probe the
hardcoded `PythonHome` for the `lib/python2.7` marker and, exactly when
`os.IsNotExist` holds of the stat error, replace `PythonHome` with the
running executable's directory.  Returns the updated state and the probe
events issued. -/
def resolveHomeOverride (env : Env) (s : PyState) : PyState × List Event :=
  if env.goos = "windows" then
    let probed := markerPath s.PythonHome
    if env.stat probed = StatRes.errNotExist then
      ({ s with PythonHome := env.executableFolder }, [Event.statProbe probed])
    else
      (s, [Event.statProbe probed])
  else
    (s, [])

/-- The fixed sequence of post-boot registration effects of `Initialize`:
`initCgoFree`, the five cgo capability modules around the host-side
container-filter build, in program order. -/
def moduleRegChunk : List Event :=
  [Event.cgoFreeInit, Event.regDatadogAgent, Event.regAggregator,
   Event.regUtil, Event.regTagger, Event.containerFilterInit,
   Event.regContainers, Event.regKubeutil]

/-- The part of `Initialize` that follows the boot call `C.init(six)`:
check `C.is_initialized`; on zero fail with the runtime's error string; on
nonzero cache the newline-stripped version string (when `get_py_version`
is non-NULL), emit telemetry and register the capability modules.  Returns
the Go result, the updated state and the events issued after `C.init`. -/
def bootAndRegister (env : Env) (cfg : Config) (h : Handle) (s : PyState) :
    Except String Unit × PyState × List Event :=
  if env.is_initialized h = 0 then
    (Except.error (env.get_error h), s, [])
  else
    let s :=
      match env.get_py_version h with
      | some raw =>
          let v := stripNewlines raw
          { s with PythonVersion := v, cachedPythonVersion := some v }
      | none => s
    (Except.ok (), s,
      Event.telemetry (sendTelemetry env cfg.pythonVersion) :: moduleRegChunk)

/-- The tail of `Initialize` after the version dispatch assigned `six` and
`PythonHome`: the NULL-handle check, the Windows home override, the path
injection, the boot call and everything after it.  `tr` is the trace
accumulated so far (the `make` event). -/
def initializeWithSix (env : Env) (cfg : Config) (paths : List String)
    (s : PyState) (tr : List Event) :
    Except String Unit × PyState × List Event :=
  match s.six with
  | none =>
      (Except.error
          ("could not init six lib for python version " ++
            toString cfg.pythonVersion),
        s, tr)
  | some h =>
      let st := resolveHomeOverride env s
      let r := bootAndRegister env cfg h st.1
      (r.1, r.2.1,
        tr ++ st.2 ++ paths.map Event.addPythonPath ++ [Event.bootInit] ++
          r.2.2)

/-- Embedding of `Initialize(paths ...string) error`.  Returns the Go
result (`error` as `Except String Unit`), the final process-wide state and
the trace of effects, in program order. -/
def Initialize (env : Env) (cfg : Config) (paths : List String)
    (s : PyState) : Except String Unit × PyState × List Event :=
  let pythonVersion := cfg.pythonVersion
  if pythonVersion = 2 then
    initializeWithSix env cfg paths
      { s with six := env.make2 env.pythonHome2, PythonHome := env.pythonHome2 }
      [Event.make 2 env.pythonHome2]
  else if pythonVersion = 3 then
    initializeWithSix env cfg paths
      { s with six := env.make3 env.pythonHome3, PythonHome := env.pythonHome3 }
      [Event.make 3 env.pythonHome3]
  else
    (Except.error
        ("unknown requested version of python: " ++ toString pythonVersion),
      s, [])

/-- Embedding of `Destroy()`: calls `C.destroy(six)` when the pointer is
non-NULL; note that it never writes the `six` variable itself. -/
def Destroy (s : PyState) : PyState × List Event :=
  match s.six with
  | some h => (s, [Event.destroySix h])
  | none => (s, [])

/-- Embedding of `GetSix()`: returns the raw handle pointer. -/
def GetSix (s : PyState) : Option Handle :=
  s.six

/-- A fresh process state: all exported strings empty, `six` NULL, cache
empty — the zero values of the Go globals. -/
def initialState : PyState :=
  { PythonVersion := ""
    PythonHome := ""
    PythonPath := ""
    six := none
    cachedPythonVersion := none }

/-- A concrete environment exercising the definitions: Windows, the marker
directory absent everywhere, both `make` calls succeed, boot succeeds, the
runtime reports raw version "3.8.10\n", and the host agent's own version
string does not parse. -/
def sampleEnv : Env :=
  { goos := "windows"
    executableFolder := "C:\\Program Files\\Datadog\\bin"
    stat := fun _ => StatRes.errNotExist
    make2 := fun _ => some 1
    make3 := fun _ => some 2
    is_initialized := fun _ => 1
    get_error := fun _ => "python: fatal boot error"
    get_py_version := fun _ => some "3.8.10\n"
    agentVersion := none
    pythonHome2 := "C:\\embedded2"
    pythonHome3 := "C:\\embedded3" }

/-- `sampleEnv` but every stat fails with an error that is not
"does not exist" (e.g. permission denied). -/
def envStatOther : Env :=
  { sampleEnv with stat := fun _ => StatRes.errOther }

/-- `sampleEnv` but the boot call leaves the runtime uninitialized. -/
def envBootFail : Env :=
  { sampleEnv with is_initialized := fun _ => 0 }

/-- `sampleEnv` but the raw version string has a newline in the middle as
well as at the end. -/
def envMidNewline : Env :=
  { sampleEnv with get_py_version := fun _ => some "3.8\n.10\n" }

/-- `sampleEnv` on a POSIX platform, with a parseable host-agent version. -/
def envLinux : Env :=
  { sampleEnv with
    goos := "linux"
    agentVersion := some { major := 6, minor := 14, patch := 1 } }

/-! ## Helper lemmas about the pieces of `Initialize` -/

lemma resolveHomeOverride_fst (env : Env) (s : PyState) :
    (resolveHomeOverride env s).1 =
      if env.goos = "windows" ∧
          env.stat (markerPath s.PythonHome) = StatRes.errNotExist then
        { s with PythonHome := env.executableFolder }
      else s := by
  by_cases hw : env.goos = "windows" <;>
    by_cases hs : env.stat (markerPath s.PythonHome) = StatRes.errNotExist <;>
      simp [resolveHomeOverride, hw, hs]

lemma resolveHomeOverride_frame (env : Env) (s : PyState) :
    (resolveHomeOverride env s).1.six = s.six ∧
    (resolveHomeOverride env s).1.PythonVersion = s.PythonVersion ∧
    (resolveHomeOverride env s).1.cachedPythonVersion =
      s.cachedPythonVersion := by
  by_cases hw : env.goos = "windows" <;>
    by_cases hs : env.stat (markerPath s.PythonHome) = StatRes.errNotExist <;>
      simp [resolveHomeOverride, hw, hs]

lemma resolveHomeOverride_events (env : Env) (s : PyState) :
    (resolveHomeOverride env s).2 = [] ∨
    (resolveHomeOverride env s).2 =
      [Event.statProbe (markerPath s.PythonHome)] := by
  by_cases hw : env.goos = "windows" <;>
    by_cases hs : env.stat (markerPath s.PythonHome) = StatRes.errNotExist <;>
      simp [resolveHomeOverride, hw, hs]

lemma bootAndRegister_fail (env : Env) (cfg : Config) (h : Handle)
    (s : PyState) (h0 : env.is_initialized h = 0) :
    bootAndRegister env cfg h s = (Except.error (env.get_error h), s, []) := by
  simp [bootAndRegister, h0]

lemma bootAndRegister_ok_parts (env : Env) (cfg : Config) (h : Handle)
    (s : PyState) (h0 : ¬env.is_initialized h = 0) :
    (bootAndRegister env cfg h s).1 = Except.ok () ∧
    (bootAndRegister env cfg h s).2.2 =
      Event.telemetry (sendTelemetry env cfg.pythonVersion) ::
        moduleRegChunk := by
  cases hr : env.get_py_version h <;> simp [bootAndRegister, h0, hr]

lemma bootAndRegister_ok_state (env : Env) (cfg : Config) (h : Handle)
    (s : PyState) (h0 : ¬env.is_initialized h = 0) (raw : String)
    (hr : env.get_py_version h = some raw) :
    (bootAndRegister env cfg h s).2.1 =
      { s with
        PythonVersion := stripNewlines raw
        cachedPythonVersion := some (stripNewlines raw) } := by
  simp [bootAndRegister, h0, hr]

lemma bootAndRegister_frame (env : Env) (cfg : Config) (h : Handle)
    (s : PyState) :
    (bootAndRegister env cfg h s).2.1.six = s.six ∧
    (bootAndRegister env cfg h s).2.1.PythonHome = s.PythonHome := by
  by_cases h0 : env.is_initialized h = 0
  · simp [bootAndRegister, h0]
  · cases hr : env.get_py_version h <;> simp [bootAndRegister, h0, hr]

lemma initializeWithSix_none (env : Env) (cfg : Config) (paths : List String)
    (s : PyState) (tr : List Event) (hs : s.six = none) :
    initializeWithSix env cfg paths s tr =
      (Except.error
          ("could not init six lib for python version " ++
            toString cfg.pythonVersion),
        s, tr) := by
  simp [initializeWithSix, hs]

lemma initializeWithSix_some (env : Env) (cfg : Config) (paths : List String)
    (s : PyState) (tr : List Event) (h : Handle) (hs : s.six = some h) :
    initializeWithSix env cfg paths s tr =
      ((bootAndRegister env cfg h (resolveHomeOverride env s).1).1,
       (bootAndRegister env cfg h (resolveHomeOverride env s).1).2.1,
       tr ++ (resolveHomeOverride env s).2 ++
         paths.map Event.addPythonPath ++ [Event.bootInit] ++
         (bootAndRegister env cfg h (resolveHomeOverride env s).1).2.2) := by
  simp [initializeWithSix, hs]

lemma Initialize_eq_v2 (env : Env) (cfg : Config) (paths : List String)
    (s : PyState) (hv : cfg.pythonVersion = 2) :
    Initialize env cfg paths s =
      initializeWithSix env cfg paths
        { s with six := env.make2 env.pythonHome2,
                 PythonHome := env.pythonHome2 }
        [Event.make 2 env.pythonHome2] := by
  simp [Initialize, hv]

lemma Initialize_eq_v3 (env : Env) (cfg : Config) (paths : List String)
    (s : PyState) (hv : cfg.pythonVersion = 3) :
    Initialize env cfg paths s =
      initializeWithSix env cfg paths
        { s with six := env.make3 env.pythonHome3,
                 PythonHome := env.pythonHome3 }
        [Event.make 3 env.pythonHome3] := by
  simp [Initialize, hv]

lemma Initialize_eq_other (env : Env) (cfg : Config) (paths : List String)
    (s : PyState) (h2 : cfg.pythonVersion ≠ 2) (h3 : cfg.pythonVersion ≠ 3) :
    Initialize env cfg paths s =
      (Except.error
          ("unknown requested version of python: " ++
            toString cfg.pythonVersion),
        s, []) := by
  simp [Initialize, h2, h3]

/-- Normal form of `Initialize` once a version was selected and the `make`
call returned a non-NULL handle: result and state come from
`bootAndRegister` applied after the home override, and the trace lists the
`make` event, the probe events, the path injections, the boot call and the
post-boot events in program order. -/
lemma Initialize_shape (env : Env) (cfg : Config) (paths : List String)
    (s : PyState) (h : Handle) (v : Nat) (home : String)
    (hv : cfg.pythonVersion = 2 ∧ env.make2 env.pythonHome2 = some h ∧
            v = 2 ∧ home = env.pythonHome2 ∨
          cfg.pythonVersion = 3 ∧ env.make3 env.pythonHome3 = some h ∧
            v = 3 ∧ home = env.pythonHome3) :
    Initialize env cfg paths s =
      ((bootAndRegister env cfg h
          (resolveHomeOverride env
            { s with six := some h, PythonHome := home }).1).1,
       (bootAndRegister env cfg h
          (resolveHomeOverride env
            { s with six := some h, PythonHome := home }).1).2.1,
       [Event.make v home] ++
         (resolveHomeOverride env
            { s with six := some h, PythonHome := home }).2 ++
         paths.map Event.addPythonPath ++ [Event.bootInit] ++
         (bootAndRegister env cfg h
            (resolveHomeOverride env
              { s with six := some h, PythonHome := home }).1).2.2) := by
  rcases hv with ⟨hv, hmk, hvv, hh⟩ | ⟨hv, hmk, hvv, hh⟩ <;> subst hvv hh
  · rw [Initialize_eq_v2 env cfg paths s hv,
      initializeWithSix_some env cfg paths _ _ h (by simp [hmk])]
    rw [hmk]
  · rw [Initialize_eq_v3 env cfg paths s hv,
      initializeWithSix_some env cfg paths _ _ h (by simp [hmk])]
    rw [hmk]

/-- Packaged form of `Initialize_shape`: from a successful version dispatch
and `make` call, extract the creation version number and compiled-in home
path together with the normal form. -/
lemma Initialize_shape_of (env : Env) (cfg : Config) (paths : List String)
    (s : PyState) (h : Handle)
    (hv : cfg.pythonVersion = 2 ∧ env.make2 env.pythonHome2 = some h ∨
          cfg.pythonVersion = 3 ∧ env.make3 env.pythonHome3 = some h) :
    ∃ (v : Nat) (home : String),
      (cfg.pythonVersion = 2 ∧ v = 2 ∧ home = env.pythonHome2 ∨
       cfg.pythonVersion = 3 ∧ v = 3 ∧ home = env.pythonHome3) ∧
      Initialize env cfg paths s =
        ((bootAndRegister env cfg h
            (resolveHomeOverride env
              { s with six := some h, PythonHome := home }).1).1,
         (bootAndRegister env cfg h
            (resolveHomeOverride env
              { s with six := some h, PythonHome := home }).1).2.1,
         [Event.make v home] ++
           (resolveHomeOverride env
              { s with six := some h, PythonHome := home }).2 ++
           paths.map Event.addPythonPath ++ [Event.bootInit] ++
           (bootAndRegister env cfg h
              (resolveHomeOverride env
                { s with six := some h, PythonHome := home }).1).2.2) := by
  rcases hv with ⟨hv, hmk⟩ | ⟨hv, hmk⟩
  · exact ⟨2, env.pythonHome2, Or.inl ⟨hv, rfl, rfl⟩,
      Initialize_shape env cfg paths s h 2 env.pythonHome2
        (Or.inl ⟨hv, hmk, rfl, rfl⟩)⟩
  · exact ⟨3, env.pythonHome3, Or.inr ⟨hv, rfl, rfl⟩,
      Initialize_shape env cfg paths s h 3 env.pythonHome3
        (Or.inr ⟨hv, hmk, rfl, rfl⟩)⟩

/-- Every event issued before the boot call — the `make`, the optional
marker probe and the path injections — is neither a module registration
nor a telemetry submission, nor the container-filter build, nor the boot
call. -/
lemma preBootEvents (env : Env) (s1 : PyState) (paths : List String)
    (v : Nat) (home : String) :
    ∀ e ∈ [Event.make v home] ++ (resolveHomeOverride env s1).2 ++
        paths.map Event.addPythonPath,
      e.isModuleReg = false ∧ e.isTelemetry = false ∧
      e ≠ Event.containerFilterInit ∧ e ≠ Event.regContainers ∧
      e ≠ Event.bootInit := by
  intro e he
  rcases resolveHomeOverride_events env s1 with hev | hev <;> rw [hev] at he <;>
    simp only [List.nil_append, List.append_nil, List.mem_append,
      List.mem_singleton, List.mem_map, List.cons_append,
      List.mem_cons, List.not_mem_nil, or_false] at he
  · rcases he with rfl | ⟨p, -, rfl⟩ <;>
      simp [Event.isModuleReg, Event.isTelemetry]
  · rcases he with rfl | rfl | ⟨p, -, rfl⟩ <;>
      simp [Event.isModuleReg, Event.isTelemetry]

/-- Parts-wise form of the boot-failure case. -/
lemma bootAndRegister_fail_parts (env : Env) (cfg : Config) (h : Handle)
    (s : PyState) (h0 : env.is_initialized h = 0) :
    (bootAndRegister env cfg h s).1 = Except.error (env.get_error h) ∧
    (bootAndRegister env cfg h s).2.1 = s ∧
    (bootAndRegister env cfg h s).2.2 = [] := by
  simp [bootAndRegister, h0]

/-- Splitting form of `Initialize` on a created handle: the trace is the
pre-boot events (whose kinds are constrained), then the boot call, then
whatever `bootAndRegister` appends; result and final state are those of
`bootAndRegister` on a state whose version/cache fields are still the
caller's. -/
lemma Initialize_trace_split (env : Env) (cfg : Config) (paths : List String)
    (s : PyState) (h : Handle)
    (hv : cfg.pythonVersion = 2 ∧ env.make2 env.pythonHome2 = some h ∨
          cfg.pythonVersion = 3 ∧ env.make3 env.pythonHome3 = some h) :
    ∃ pre : List Event,
      (∀ e ∈ pre, e.isModuleReg = false ∧ e.isTelemetry = false ∧
         e ≠ Event.containerFilterInit ∧ e ≠ Event.regContainers ∧
         e ≠ Event.bootInit) ∧
      ∃ st1 : PyState,
        st1.PythonVersion = s.PythonVersion ∧
        st1.cachedPythonVersion = s.cachedPythonVersion ∧
        (Initialize env cfg paths s).2.2 =
          pre ++ [Event.bootInit] ++ (bootAndRegister env cfg h st1).2.2 ∧
        (Initialize env cfg paths s).1 = (bootAndRegister env cfg h st1).1 ∧
        (Initialize env cfg paths s).2.1 =
          (bootAndRegister env cfg h st1).2.1 := by
  obtain ⟨v, home, hvh, hshape⟩ := Initialize_shape_of env cfg paths s h hv
  refine ⟨[Event.make v home] ++
      (resolveHomeOverride env
        { s with six := some h, PythonHome := home }).2 ++
      paths.map Event.addPythonPath,
    preBootEvents env _ paths v home,
    (resolveHomeOverride env
      { s with six := some h, PythonHome := home }).1,
    ?_, ?_, ?_, ?_, ?_⟩
  · exact (resolveHomeOverride_frame env _).2.1
  · exact (resolveHomeOverride_frame env _).2.2
  · rw [hshape]
  · rw [hshape]
  · rw [hshape]

/-! ## Claims -/

/-- C1 (code bug): the claim's "Destroy on an already-destroyed handle
performs no release operation" fails on the code.  `Destroy` never writes
the `six` variable, so from any state with a live handle a second
consecutive `Destroy` finds `six` still non-NULL and issues the foreign
`C.destroy` again — on the already-destroyed pointer.  This theorem
evaluates the code at the failing input: the second call's trace holds a
release event, equal to the first call's (only the absent-handle leg of
the claim holds, third conjunct). -/
theorem destroy_second_call_releases_again :
    (Destroy { initialState with six := some 1 }).2 = [Event.destroySix 1] ∧
    (Destroy (Destroy { initialState with six := some 1 }).1).2 =
      [Event.destroySix 1] ∧
    (Destroy initialState).2 = [] := by
  decide

/-- C9: `Destroy` never modifies the process-wide handle variable: the
state (hence `GetSix`) after `Destroy` equals the state before it; in
particular after a successful `Initialize` followed by `Destroy`, `GetSix`
still returns the same non-NULL pointer rather than reporting the handle
absent. -/
theorem destroy_preserves_handle :
    (∀ s : PyState, (Destroy s).1 = s ∧ GetSix (Destroy s).1 = GetSix s) ∧
    (∀ env cfg paths s, (Initialize env cfg paths s).1 = Except.ok () →
       GetSix (Destroy (Initialize env cfg paths s).2.1).1 =
         GetSix (Initialize env cfg paths s).2.1 ∧
       GetSix (Initialize env cfg paths s).2.1 ≠ none) := by
  have hD : ∀ s : PyState, (Destroy s).1 = s := by
    intro s; cases hs : s.six <;> simp [Destroy, hs]
  refine ⟨fun s => ⟨hD s, by rw [hD s]⟩, ?_⟩
  intro env cfg paths s hok
  refine ⟨by rw [hD _], ?_⟩
  by_cases h2 : cfg.pythonVersion = 2
  · rw [Initialize_eq_v2 env cfg paths s h2] at hok ⊢
    cases hmk : env.make2 env.pythonHome2 with
    | none =>
        rw [initializeWithSix_none env cfg paths _ _ (by simp [hmk])] at hok
        exact absurd hok (by simp)
    | some h =>
        rw [initializeWithSix_some env cfg paths _ _ h (by simp [hmk])]
        simp [GetSix, (bootAndRegister_frame env cfg h _).1,
          (resolveHomeOverride_frame env _).1]
  · by_cases h3 : cfg.pythonVersion = 3
    · rw [Initialize_eq_v3 env cfg paths s h3] at hok ⊢
      cases hmk : env.make3 env.pythonHome3 with
      | none =>
          rw [initializeWithSix_none env cfg paths _ _ (by simp [hmk])] at hok
          exact absurd hok (by simp)
      | some h =>
          rw [initializeWithSix_some env cfg paths _ _ h (by simp [hmk])]
          simp [GetSix, (bootAndRegister_frame env cfg h _).1,
            (resolveHomeOverride_frame env _).1]
    · rw [Initialize_eq_other env cfg paths s h2 h3] at hok
      exact absurd hok (by simp)

/-- C9 witness: after a successful boot in the sample environment, the
handle survives `Destroy` and is still non-NULL. -/
theorem destroy_preserves_handle_witness :
    GetSix (Destroy
        (Initialize sampleEnv { pythonVersion := 2 } [] initialState).2.1).1 =
      GetSix (Initialize sampleEnv { pythonVersion := 2 } [] initialState).2.1 ∧
    GetSix (Initialize sampleEnv { pythonVersion := 2 } [] initialState).2.1 ≠
      none :=
  destroy_preserves_handle.2 sampleEnv { pythonVersion := 2 } [] initialState
    (by rfl)

/-- C2: for every configured version other than 2 and 3, `Initialize`
returns the "unknown requested version of python" error carrying the
offending value, with an empty effect trace (so no handle was created) and
the state unchanged — in particular `GetSix` still reports the handle
absent on a fresh boot; for values 2 and 3 the matching `make2`/`make3`
call is issued with the matching compiled-in home, as the first effect. -/
theorem initialize_version_selection :
    (∀ env cfg paths s, cfg.pythonVersion ≠ 2 → cfg.pythonVersion ≠ 3 →
       Initialize env cfg paths s =
         (Except.error ("unknown requested version of python: " ++
            toString cfg.pythonVersion), s, []) ∧
       (s.six = none → GetSix (Initialize env cfg paths s).2.1 = none)) ∧
    (∀ env cfg paths s, cfg.pythonVersion = 2 →
       (Initialize env cfg paths s).2.2.head? =
         some (Event.make 2 env.pythonHome2) ∧
       (Initialize env cfg paths s).2.1.six = env.make2 env.pythonHome2) ∧
    (∀ env cfg paths s, cfg.pythonVersion = 3 →
       (Initialize env cfg paths s).2.2.head? =
         some (Event.make 3 env.pythonHome3) ∧
       (Initialize env cfg paths s).2.1.six = env.make3 env.pythonHome3) := by
  refine ⟨?_, ?_, ?_⟩
  · intro env cfg paths s h2 h3
    rw [Initialize_eq_other env cfg paths s h2 h3]
    exact ⟨rfl, fun hs => hs⟩
  · intro env cfg paths s hv
    rw [Initialize_eq_v2 env cfg paths s hv]
    cases hmk : env.make2 env.pythonHome2 with
    | none =>
        rw [initializeWithSix_none env cfg paths _ _ (by simp [hmk])]
        simp [hmk]
    | some h =>
        rw [initializeWithSix_some env cfg paths _ _ h (by simp [hmk])]
        simp [hmk, (bootAndRegister_frame env cfg h _).1,
          (resolveHomeOverride_frame env _).1]
  · intro env cfg paths s hv
    rw [Initialize_eq_v3 env cfg paths s hv]
    cases hmk : env.make3 env.pythonHome3 with
    | none =>
        rw [initializeWithSix_none env cfg paths _ _ (by simp [hmk])]
        simp [hmk]
    | some h =>
        rw [initializeWithSix_some env cfg paths _ _ h (by simp [hmk])]
        simp [hmk, (bootAndRegister_frame env cfg h _).1,
          (resolveHomeOverride_frame env _).1]

/-- C2 witness: version 5 is rejected with the error carrying 5 and no
effect; versions 2 and 3 start by creating the matching runtime. -/
theorem initialize_version_selection_witness :
    Initialize sampleEnv { pythonVersion := 5 } [] initialState =
      (Except.error ("unknown requested version of python: " ++
        toString (5 : Int)), initialState, []) ∧
    (Initialize sampleEnv { pythonVersion := 2 } [] initialState).2.2.head? =
      some (Event.make 2 sampleEnv.pythonHome2) ∧
    (Initialize sampleEnv { pythonVersion := 3 } [] initialState).2.2.head? =
      some (Event.make 3 sampleEnv.pythonHome3) :=
  ⟨(initialize_version_selection.1 sampleEnv { pythonVersion := 5 } []
      initialState (by decide) (by decide)).1,
   (initialize_version_selection.2.1 sampleEnv { pythonVersion := 2 } []
      initialState rfl).1,
   (initialize_version_selection.2.2 sampleEnv { pythonVersion := 3 } []
      initialState rfl).1⟩

/-- C5: after a successful boot, when `get_py_version` returns a raw
string, the cached process-wide version string (both the exported variable
and the cache entry) equals the raw string with every newline character
removed — middle newlines included, since the replacement drops each
occurrence — and the cached value holds no newline character. -/
theorem cached_version_strips_all_newlines
    (env : Env) (cfg : Config) (paths : List String) (s : PyState)
    (h : Handle) (raw : String)
    (hv : cfg.pythonVersion = 2 ∧ env.make2 env.pythonHome2 = some h ∨
          cfg.pythonVersion = 3 ∧ env.make3 env.pythonHome3 = some h)
    (hboot : env.is_initialized h ≠ 0)
    (hraw : env.get_py_version h = some raw) :
    (Initialize env cfg paths s).2.1.PythonVersion = stripNewlines raw ∧
    (Initialize env cfg paths s).2.1.cachedPythonVersion =
      some (stripNewlines raw) ∧
    '\n' ∉ (stripNewlines raw).data := by
  obtain ⟨v, home, -, hshape⟩ := Initialize_shape_of env cfg paths s h hv
  rw [hshape, bootAndRegister_ok_state env cfg h _ hboot raw hraw]
  refine ⟨rfl, rfl, ?_⟩
  simp [stripNewlines]

/-- C3: when the runtime's "is initialized" query returns zero after the
boot call, `Initialize` fails with an error whose message is exactly the
error string extracted from the runtime (`fmt.Errorf("%s", err)` adds
nothing), no capability module is registered, no telemetry is emitted,
and neither the exported version string nor the cache entry is set. -/
theorem boot_failure_returns_runtime_error
    (env : Env) (cfg : Config) (paths : List String) (s : PyState)
    (h : Handle)
    (hv : cfg.pythonVersion = 2 ∧ env.make2 env.pythonHome2 = some h ∨
          cfg.pythonVersion = 3 ∧ env.make3 env.pythonHome3 = some h)
    (hboot : env.is_initialized h = 0) :
    (Initialize env cfg paths s).1 = Except.error (env.get_error h) ∧
    (∀ e ∈ (Initialize env cfg paths s).2.2,
       e.isModuleReg = false ∧ e.isTelemetry = false) ∧
    (Initialize env cfg paths s).2.1.PythonVersion = s.PythonVersion ∧
    (Initialize env cfg paths s).2.1.cachedPythonVersion =
      s.cachedPythonVersion := by
  obtain ⟨pre, hpre, st1, hPV, hcache, htr, hres, hstate⟩ :=
    Initialize_trace_split env cfg paths s h hv
  obtain ⟨e1, e2, e3⟩ := bootAndRegister_fail_parts env cfg h st1 hboot
  refine ⟨by rw [hres, e1], ?_, by rw [hstate, e2, hPV],
    by rw [hstate, e2, hcache]⟩
  intro e he
  rw [htr, e3, List.append_nil] at he
  rcases List.mem_append.mp he with hm | hm
  · exact ⟨(hpre e hm).1, (hpre e hm).2.1⟩
  · rw [List.mem_singleton] at hm
    subst hm
    exact ⟨rfl, rfl⟩

/-- C3 witness: with a boot that leaves the runtime uninitialized, the
returned error is exactly the runtime's error string, and the exported
version string stays empty. -/
theorem boot_failure_returns_runtime_error_witness :
    (Initialize envBootFail { pythonVersion := 3 } ["/etc/checks.d"]
        initialState).1 = Except.error (envBootFail.get_error 2) ∧
    (Initialize envBootFail { pythonVersion := 3 } ["/etc/checks.d"]
        initialState).2.1.PythonVersion = initialState.PythonVersion :=
  ⟨(boot_failure_returns_runtime_error envBootFail { pythonVersion := 3 }
      ["/etc/checks.d"] initialState 2 (Or.inr ⟨rfl, rfl⟩) rfl).1,
   (boot_failure_returns_runtime_error envBootFail { pythonVersion := 3 }
      ["/etc/checks.d"] initialState 2 (Or.inr ⟨rfl, rfl⟩) rfl).2.2.1⟩

/-- C4 counterexample: in a concrete Windows run where the override
applies, the only handle-creation event carries the compiled-in default
home, while the resolved HomePath afterwards is the executable's
directory — so the home path the handle is created with does not equal
the resolved HomePath, and the handle is not created with the running
executable's directory. -/
theorem home_override_happens_after_create :
    ((Initialize sampleEnv { pythonVersion := 2 } []
        initialState).2.2.filter Event.isMake) =
      [Event.make 2 "C:\\embedded2"] ∧
    (Initialize sampleEnv { pythonVersion := 2 } []
        initialState).2.1.PythonHome = "C:\\Program Files\\Datadog\\bin" ∧
    "C:\\embedded2" ≠ "C:\\Program Files\\Datadog\\bin" := by
  decide

/-- C4 corrected: the handle is created with the compiled-in default home
of the selected version (the `make` event is the first effect, before any
probe), and only afterwards is the published HomePath possibly overridden:
the resolved HomePath is the executable's directory exactly when the
Windows marker probe fails with "not exists", and the compiled-in default
otherwise. -/
theorem handle_created_with_compiled_default
    (env : Env) (cfg : Config) (paths : List String) (s : PyState)
    (h : Handle)
    (hv : cfg.pythonVersion = 2 ∧ env.make2 env.pythonHome2 = some h ∨
          cfg.pythonVersion = 3 ∧ env.make3 env.pythonHome3 = some h) :
    ∃ home : String,
      (cfg.pythonVersion = 2 ∧ home = env.pythonHome2 ∨
       cfg.pythonVersion = 3 ∧ home = env.pythonHome3) ∧
      (∃ v : Nat, (Initialize env cfg paths s).2.2.head? =
        some (Event.make v home)) ∧
      (Initialize env cfg paths s).2.1.PythonHome =
        (if env.goos = "windows" ∧
            env.stat (markerPath home) = StatRes.errNotExist
         then env.executableFolder else home) := by
  obtain ⟨v, home, hvh, hshape⟩ := Initialize_shape_of env cfg paths s h hv
  refine ⟨home, ?_, ⟨v, ?_⟩, ?_⟩
  · rcases hvh with ⟨a, -, c⟩ | ⟨a, -, c⟩
    · exact Or.inl ⟨a, c⟩
    · exact Or.inr ⟨a, c⟩
  · rw [hshape]; rfl
  · rw [hshape]
    dsimp only
    rw [(bootAndRegister_frame env cfg h _).2, resolveHomeOverride_fst]
    dsimp only
    split_ifs <;> rfl

/-- C4 witness: the corrected statement evaluated on the sample Windows
environment with version 2. -/
theorem handle_created_with_compiled_default_witness :
    ∃ home : String,
      ((2 : Int) = 2 ∧ home = "C:\\embedded2" ∨
       (2 : Int) = 3 ∧ home = "C:\\embedded3") ∧
      (∃ v : Nat, (Initialize sampleEnv { pythonVersion := 2 } []
          initialState).2.2.head? = some (Event.make v home)) ∧
      (Initialize sampleEnv { pythonVersion := 2 } []
          initialState).2.1.PythonHome =
        (if sampleEnv.goos = "windows" ∧
            sampleEnv.stat (markerPath home) = StatRes.errNotExist
         then sampleEnv.executableFolder else home) :=
  handle_created_with_compiled_default sampleEnv { pythonVersion := 2 } []
    initialState 1 (Or.inl ⟨rfl, rfl⟩)

/-- C5 witness: raw "3.8.10\n" is cached as "3.8.10", and a middle newline
is removed as well: raw "3.8\n.10\n" is cached as "3.8.10". -/
theorem cached_version_strips_all_newlines_witness :
    (Initialize sampleEnv { pythonVersion := 3 } []
        initialState).2.1.PythonVersion = stripNewlines "3.8.10\n" ∧
    stripNewlines "3.8.10\n" = "3.8.10" ∧
    (Initialize envMidNewline { pythonVersion := 2 } []
        initialState).2.1.PythonVersion = stripNewlines "3.8\n.10\n" ∧
    stripNewlines "3.8\n.10\n" = "3.8.10" :=
  ⟨(cached_version_strips_all_newlines sampleEnv { pythonVersion := 3 } []
      initialState 2 "3.8.10\n" (Or.inr ⟨rfl, rfl⟩) (by decide) rfl).1,
   by decide,
   (cached_version_strips_all_newlines envMidNewline { pythonVersion := 2 } []
      initialState 1 "3.8\n.10\n" (Or.inl ⟨rfl, rfl⟩) (by decide) rfl).1,
   by decide⟩

/-- C6 counterexample: a stat failure that is not "does not exist" (e.g. a
permission error) does not trigger the override — the code checks
`os.IsNotExist(err)`, not "any error" — so HomePath stays the compiled
default instead of the executable's directory; the failure is not fatal
either (boot proceeds and `Initialize` succeeds). -/
theorem stat_permission_error_keeps_default :
    envStatOther.stat (markerPath "C:\\embedded2") = StatRes.errOther ∧
    (Initialize envStatOther { pythonVersion := 2 } []
        initialState).2.1.PythonHome = "C:\\embedded2" ∧
    "C:\\embedded2" ≠ envStatOther.executableFolder ∧
    (Initialize envStatOther { pythonVersion := 2 } [] initialState).1 =
      Except.ok () :=
  ⟨rfl, rfl, by decide, rfl⟩

/-- C6 corrected: on Windows, exactly a stat outcome recognized by
`os.IsNotExist` triggers substituting the executable's directory; a stat
success or any other stat error leaves HomePath at the compiled default;
and no stat outcome is fatal — the result of `Initialize` is decided only
by the boot. -/
theorem stat_override_only_on_isnotexist
    (env : Env) (cfg : Config) (paths : List String) (s : PyState)
    (h : Handle)
    (hwin : env.goos = "windows")
    (hv : cfg.pythonVersion = 2 ∧ env.make2 env.pythonHome2 = some h ∨
          cfg.pythonVersion = 3 ∧ env.make3 env.pythonHome3 = some h) :
    ∃ home : String,
      (cfg.pythonVersion = 2 ∧ home = env.pythonHome2 ∨
       cfg.pythonVersion = 3 ∧ home = env.pythonHome3) ∧
      (env.stat (markerPath home) = StatRes.errNotExist →
        (Initialize env cfg paths s).2.1.PythonHome =
          env.executableFolder) ∧
      (env.stat (markerPath home) ≠ StatRes.errNotExist →
        (Initialize env cfg paths s).2.1.PythonHome = home) ∧
      (Initialize env cfg paths s).1 =
        (if env.is_initialized h = 0 then Except.error (env.get_error h)
         else Except.ok ()) := by
  obtain ⟨v, home, hvh, hshape⟩ := Initialize_shape_of env cfg paths s h hv
  refine ⟨home, ?_, ?_, ?_, ?_⟩
  · rcases hvh with ⟨a, -, c⟩ | ⟨a, -, c⟩
    · exact Or.inl ⟨a, c⟩
    · exact Or.inr ⟨a, c⟩
  · intro hst
    rw [hshape]
    dsimp only
    rw [(bootAndRegister_frame env cfg h _).2, resolveHomeOverride_fst]
    dsimp only
    rw [if_pos ⟨hwin, hst⟩]
  · intro hst
    rw [hshape]
    dsimp only
    rw [(bootAndRegister_frame env cfg h _).2, resolveHomeOverride_fst]
    dsimp only
    rw [if_neg (fun hc => hst hc.2)]
  · rw [hshape]
    dsimp only
    by_cases h0 : env.is_initialized h = 0
    · rw [(bootAndRegister_fail_parts env cfg h _ h0).1, if_pos h0]
    · rw [(bootAndRegister_ok_parts env cfg h _ h0).1, if_neg h0]

/-- C6 witness: the corrected statement evaluated on the sample Windows
environment (marker absent, version 2). -/
theorem stat_override_only_on_isnotexist_witness :
    ∃ home : String,
      ((2 : Int) = 2 ∧ home = "C:\\embedded2" ∨
       (2 : Int) = 3 ∧ home = "C:\\embedded3") ∧
      (sampleEnv.stat (markerPath home) = StatRes.errNotExist →
        (Initialize sampleEnv { pythonVersion := 2 } []
            initialState).2.1.PythonHome = sampleEnv.executableFolder) ∧
      (sampleEnv.stat (markerPath home) ≠ StatRes.errNotExist →
        (Initialize sampleEnv { pythonVersion := 2 } []
            initialState).2.1.PythonHome = home) ∧
      (Initialize sampleEnv { pythonVersion := 2 } [] initialState).1 =
        (if sampleEnv.is_initialized 1 = 0 then
          Except.error (sampleEnv.get_error 1)
         else Except.ok ()) :=
  stat_override_only_on_isnotexist sampleEnv { pythonVersion := 2 } []
    initialState 1 rfl (Or.inl ⟨rfl, rfl⟩)

/-- C7: on every successful boot exactly one telemetry submission appears
in the trace; it is a gauge serie with the single point 1.0 carrying the
tag python_version:(major); when the host agent's own version is
unavailable or unparseable the agent-version tags are simply omitted, and
`Initialize` still returns no error. -/
theorem telemetry_once_on_success
    (env : Env) (cfg : Config) (paths : List String) (s : PyState)
    (h : Handle)
    (hv : cfg.pythonVersion = 2 ∧ env.make2 env.pythonHome2 = some h ∨
          cfg.pythonVersion = 3 ∧ env.make3 env.pythonHome3 = some h)
    (hboot : env.is_initialized h ≠ 0) :
    (Initialize env cfg paths s).1 = Except.ok () ∧
    (Initialize env cfg paths s).2.2.countP Event.isTelemetry = 1 ∧
    Event.telemetry (sendTelemetry env cfg.pythonVersion) ∈
      (Initialize env cfg paths s).2.2 ∧
    (sendTelemetry env cfg.pythonVersion).points = [(1 : ℚ)] ∧
    (sendTelemetry env cfg.pythonVersion).mtype = MetricType.apiGauge ∧
    ("python_version:" ++ toString cfg.pythonVersion) ∈
      (sendTelemetry env cfg.pythonVersion).tags ∧
    (env.agentVersion = none →
      (sendTelemetry env cfg.pythonVersion).tags =
        ["python_version:" ++ toString cfg.pythonVersion]) := by
  obtain ⟨pre, hpre, st1, -, -, htr, hres, -⟩ :=
    Initialize_trace_split env cfg paths s h hv
  obtain ⟨e1, e2⟩ := bootAndRegister_ok_parts env cfg h st1 hboot
  refine ⟨by rw [hres, e1], ?_, ?_, ?_, ?_, ?_, ?_⟩
  · rw [htr, e2]
    have h0 : pre.countP Event.isTelemetry = 0 :=
      List.countP_eq_zero.mpr (fun e he => by simp [(hpre e he).2.1])
    simp [List.countP_append, List.countP_cons, h0, moduleRegChunk,
      Event.isTelemetry]
  · rw [htr, e2]
    simp
  · cases hA : env.agentVersion <;> simp [sendTelemetry, hA]
  · cases hA : env.agentVersion <;> simp [sendTelemetry, hA]
  · cases hA : env.agentVersion <;> simp [sendTelemetry, hA]
  · intro hA
    simp [sendTelemetry, hA]

/-- C7 witness: on the sample environment (host-agent version
unparseable) the boot succeeds, exactly one telemetry event is emitted,
and its tag list is just the python_version tag. -/
theorem telemetry_once_on_success_witness :
    (Initialize sampleEnv { pythonVersion := 2 } [] initialState).1 =
      Except.ok () ∧
    (Initialize sampleEnv { pythonVersion := 2 } []
        initialState).2.2.countP Event.isTelemetry = 1 ∧
    (sampleEnv.agentVersion = none →
      (sendTelemetry sampleEnv
          ({ pythonVersion := 2 } : Config).pythonVersion).tags =
        ["python_version:" ++ toString
          ({ pythonVersion := 2 } : Config).pythonVersion]) :=
  ⟨(telemetry_once_on_success sampleEnv { pythonVersion := 2 } []
      initialState 1 (Or.inl ⟨rfl, rfl⟩) (by decide)).1,
   (telemetry_once_on_success sampleEnv { pythonVersion := 2 } []
      initialState 1 (Or.inl ⟨rfl, rfl⟩) (by decide)).2.1,
   (telemetry_once_on_success sampleEnv { pythonVersion := 2 } []
      initialState 1 (Or.inl ⟨rfl, rfl⟩) (by decide)).2.2.2.2.2.2⟩

/-- C10: on Windows the probed marker directory is always
HomePath/lib/python2.7, version 2.7's layout, even for a version-3 boot:
when that subdirectory is missing under the compiled-in version-3 home
(whatever else that home contains), the published HomePath is overridden
to the running executable's directory. -/
theorem windows_v3_probes_python27_marker
    (env : Env) (cfg : Config) (paths : List String) (s : PyState)
    (h : Handle)
    (hwin : env.goos = "windows")
    (hv3 : cfg.pythonVersion = 3)
    (hmk : env.make3 env.pythonHome3 = some h)
    (hstat : env.stat (env.pythonHome3 ++ "\\lib\\python2.7") =
      StatRes.errNotExist) :
    Event.statProbe (env.pythonHome3 ++ "\\lib\\python2.7") ∈
      (Initialize env cfg paths s).2.2 ∧
    (Initialize env cfg paths s).2.1.PythonHome =
      env.executableFolder := by
  have hst : env.stat (markerPath env.pythonHome3) = StatRes.errNotExist :=
    hstat
  obtain ⟨v, home, hvh, hshape⟩ :=
    Initialize_shape_of env cfg paths s h (Or.inr ⟨hv3, hmk⟩)
  rcases hvh with ⟨hc, -, -⟩ | ⟨-, -, hh⟩
  · rw [hv3] at hc
    exact absurd hc (by decide)
  subst hh
  have hev : (resolveHomeOverride env
      { s with six := some h, PythonHome := env.pythonHome3 }).2 =
      [Event.statProbe (markerPath env.pythonHome3)] := by
    simp [resolveHomeOverride, hwin, hst]
  constructor
  · rw [hshape]
    dsimp only
    rw [hev]
    simp [markerPath]
  · rw [hshape]
    dsimp only
    rw [(bootAndRegister_frame env cfg h _).2, resolveHomeOverride_fst]
    dsimp only
    rw [if_pos ⟨hwin, hst⟩]

/-- C10 witness: a version-3 boot on the sample Windows environment
probes embedded3/lib/python2.7 and, the marker being absent, publishes
the executable's directory as HomePath. -/
theorem windows_v3_probes_python27_marker_witness :
    Event.statProbe (sampleEnv.pythonHome3 ++ "\\lib\\python2.7") ∈
      (Initialize sampleEnv { pythonVersion := 3 } [] initialState).2.2 ∧
    (Initialize sampleEnv { pythonVersion := 3 } []
        initialState).2.1.PythonHome = sampleEnv.executableFolder :=
  windows_v3_probes_python27_marker sampleEnv { pythonVersion := 3 } []
    initialState 2 rfl rfl rfl rfl

/-- Core of the registration-ordering property, for runs where a handle
was created: if the containers module is registered then the
container-filter build precedes it in the trace; any module registration
implies the run succeeded; and every module registration comes after the
boot call. -/
lemma registrations_core (env : Env) (cfg : Config) (paths : List String)
    (s : PyState) (h : Handle)
    (hv : cfg.pythonVersion = 2 ∧ env.make2 env.pythonHome2 = some h ∨
          cfg.pythonVersion = 3 ∧ env.make3 env.pythonHome3 = some h) :
    (Event.regContainers ∈ (Initialize env cfg paths s).2.2 →
      [Event.containerFilterInit, Event.regContainers].Sublist
        (Initialize env cfg paths s).2.2) ∧
    ((∃ e ∈ (Initialize env cfg paths s).2.2, e.isModuleReg = true) →
      (Initialize env cfg paths s).1 = Except.ok ()) ∧
    (∀ e ∈ (Initialize env cfg paths s).2.2, e.isModuleReg = true →
      [Event.bootInit, e].Sublist (Initialize env cfg paths s).2.2) := by
  obtain ⟨pre, hpre, st1, -, -, htr, hres, -⟩ :=
    Initialize_trace_split env cfg paths s h hv
  by_cases h0 : env.is_initialized h = 0
  · obtain ⟨-, -, e3⟩ := bootAndRegister_fail_parts env cfg h st1 h0
    rw [htr, e3, List.append_nil]
    refine ⟨?_, ?_, ?_⟩
    · intro hmem
      exfalso
      rcases List.mem_append.mp hmem with hm | hm
      · exact (hpre _ hm).2.2.2.1 rfl
      · rw [List.mem_singleton] at hm
        exact Event.noConfusion hm
    · rintro ⟨e, he, hreg⟩
      exfalso
      rcases List.mem_append.mp he with hm | hm
      · rw [(hpre _ hm).1] at hreg
        exact Bool.noConfusion hreg
      · rw [List.mem_singleton] at hm
        subst hm
        simp [Event.isModuleReg] at hreg
    · intro e he hreg
      exfalso
      rcases List.mem_append.mp he with hm | hm
      · rw [(hpre _ hm).1] at hreg
        exact Bool.noConfusion hreg
      · rw [List.mem_singleton] at hm
        subst hm
        simp [Event.isModuleReg] at hreg
  · obtain ⟨e1, e2⟩ := bootAndRegister_ok_parts env cfg h st1 h0
    rw [htr, e2, hres, e1]
    refine ⟨fun _ => ?_, fun _ => rfl, ?_⟩
    · have h1 : [Event.containerFilterInit, Event.regContainers].Sublist
          moduleRegChunk := by decide
      exact (List.Sublist.cons _ h1).trans (List.sublist_append_right _ _)
    · intro e he hreg
      have hepost : e ∈ Event.telemetry (sendTelemetry env cfg.pythonVersion) ::
          moduleRegChunk := by
        rcases List.mem_append.mp he with hm | hm
        · rcases List.mem_append.mp hm with hm2 | hm2
          · rw [(hpre _ hm2).1] at hreg
            exact Bool.noConfusion hreg
          · rw [List.mem_singleton] at hm2
            subst hm2
            simp [Event.isModuleReg] at hreg
        · exact hm
      rw [List.append_assoc]
      exact (List.Sublist.cons₂ _
        (List.singleton_sublist.mpr hepost)).trans
        (List.sublist_append_right pre _)

/-- C8: the container-exclusion module's callback table is registered only
after the host-side exclusion-filter build has run (it appears in the
trace only with the filter-build event before it), and every
capability-module registration happens only in runs where the boot
succeeded, strictly after the boot call. -/
theorem registrations_after_boot_filter_before_containers
    (env : Env) (cfg : Config) (paths : List String) (s : PyState) :
    (Event.regContainers ∈ (Initialize env cfg paths s).2.2 →
      [Event.containerFilterInit, Event.regContainers].Sublist
        (Initialize env cfg paths s).2.2) ∧
    ((∃ e ∈ (Initialize env cfg paths s).2.2, e.isModuleReg = true) →
      (Initialize env cfg paths s).1 = Except.ok ()) ∧
    (∀ e ∈ (Initialize env cfg paths s).2.2, e.isModuleReg = true →
      [Event.bootInit, e].Sublist (Initialize env cfg paths s).2.2) := by
  by_cases h2 : cfg.pythonVersion = 2
  · cases hmk : env.make2 env.pythonHome2 with
    | none =>
        rw [Initialize_eq_v2 env cfg paths s h2,
          initializeWithSix_none env cfg paths _ _ (by simp [hmk])]
        refine ⟨?_, ?_, ?_⟩
        · intro hmem
          rw [List.mem_singleton] at hmem
          exact absurd hmem (fun hh => Event.noConfusion hh)
        · rintro ⟨e, he, hreg⟩
          rw [List.mem_singleton] at he
          subst he
          simp [Event.isModuleReg] at hreg
        · intro e he hreg
          rw [List.mem_singleton] at he
          subst he
          simp [Event.isModuleReg] at hreg
    | some h => exact registrations_core env cfg paths s h (Or.inl ⟨h2, hmk⟩)
  · by_cases h3 : cfg.pythonVersion = 3
    · cases hmk : env.make3 env.pythonHome3 with
      | none =>
          rw [Initialize_eq_v3 env cfg paths s h3,
            initializeWithSix_none env cfg paths _ _ (by simp [hmk])]
          refine ⟨?_, ?_, ?_⟩
          · intro hmem
            rw [List.mem_singleton] at hmem
            exact absurd hmem (fun hh => Event.noConfusion hh)
          · rintro ⟨e, he, hreg⟩
            rw [List.mem_singleton] at he
            subst he
            simp [Event.isModuleReg] at hreg
          · intro e he hreg
            rw [List.mem_singleton] at he
            subst he
            simp [Event.isModuleReg] at hreg
      | some h => exact registrations_core env cfg paths s h (Or.inr ⟨h3, hmk⟩)
    · rw [Initialize_eq_other env cfg paths s h2 h3]
      refine ⟨?_, ?_, ?_⟩
      · intro hmem
        exact absurd hmem (by simp)
      · rintro ⟨e, he, -⟩
        exact absurd he (by simp)
      · intro e he
        exact absurd he (by simp)

/-- C8 witness: in a successful sample run the filter-build precedes the
containers-module registration, and the presence of a registration event
certifies the successful result. -/
theorem registrations_after_boot_filter_before_containers_witness :
    [Event.containerFilterInit, Event.regContainers].Sublist
      (Initialize sampleEnv { pythonVersion := 2 } [] initialState).2.2 ∧
    (Initialize sampleEnv { pythonVersion := 2 } [] initialState).1 =
      Except.ok () :=
  ⟨(registrations_after_boot_filter_before_containers sampleEnv
      { pythonVersion := 2 } [] initialState).1 (by decide),
   (registrations_after_boot_filter_before_containers sampleEnv
      { pythonVersion := 2 } [] initialState).2.1
     ⟨Event.regContainers, by decide, rfl⟩⟩

end DatadogInit
